import Mathlib

/-!
Shallow embedding of the measurement-fusion core of the ECL navigation
estimator: the routine `Ekf::fuseVelPosHeight` of
`src/EKF/vel_pos_fusion.cpp`. Machine floating-point numbers are modelled
as exact rational numbers; the 24-state covariance is a total function on
`Fin 24`. Collaborator routines that are declared but not defined in the
sources at hand (`zeroRows`, `zeroCols`, `fixCovarianceErrors`, `fuse`)
are modelled from the specification and marked as such.
-/

namespace Ecl

/-- A 24-by-24 covariance matrix over the rationals. -/
abbrev Mat : Type := Fin 24 → Fin 24 → ℚ

/-- A 24-entry state (or gain) vector over the rationals. -/
abbrev Vec24 : Type := Fin 24 → ℚ

/-- Square of a rational, mirroring the `sq` helper of the source. -/
def sq (x : ℚ) : ℚ := x * x

/-- The `math::constrain(v, lo, hi)` helper of the source tree. -/
def constrain (v lo hi : ℚ) : ℚ := if v < lo then lo else if v > hi then hi else v

/-- Control-mode flags read by the fusion routine (`_control_status.flags`). -/
structure ControlFlags where
  baro_hgt : Bool
  gps_hgt : Bool
  rng_hgt : Bool
  ev_hgt : Bool
  gnd_effect : Bool
  tilt_align : Bool
deriving DecidableEq

/-- Per-axis covariance fault flags (`_fault_status.flags`). -/
structure FaultStatus where
  bad_vel_N : Bool
  bad_vel_E : Bool
  bad_vel_D : Bool
  bad_pos_N : Bool
  bad_pos_E : Bool
  bad_pos_D : Bool
deriving DecidableEq

/-- Innovation-check failure flags (`_innov_check_fail_status.flags`). -/
structure InnovCheckFail where
  reject_vel_NED : Bool
  reject_pos_NE : Bool
  reject_pos_D : Bool
deriving DecidableEq

/-- Tuning parameters read by the fusion routine (`_params`). -/
structure Params where
  gps_vel_noise : ℚ
  vel_innov_gate : ℚ
  baro_noise : ℚ
  baro_innov_gate : ℚ
  gps_pos_noise : ℚ
  pos_noaid_noise : ℚ
  range_noise : ℚ
  range_noise_scaler : ℚ
  rng_gnd_clearance : ℚ
  range_cos_max_tilt : ℚ
  range_innov_gate : ℚ
  ev_innov_gate : ℚ
  gnd_effect_deadzone : ℚ
deriving DecidableEq

/-- The slice of the `Ekf` object state that `fuseVelPosHeight` reads or
writes: state vector, covariance, sensor samples, parameters, scratch
innovation arrays, one-shot fuse request flags, and the health ledger. -/
structure Ekf where
  x : Vec24
  P : Mat
  params : Params
  flags : ControlFlags
  gps_hgt_sample : ℚ
  gps_sacc : ℚ
  gps_vacc : ℚ
  baro_hgt_sample : ℚ
  rng_sample : ℚ
  ev_pos_d : ℚ
  ev_posErr : ℚ
  R_rng_to_earth_2_2 : ℚ
  baro_hgt_offset : ℚ
  gps_alt_ref : ℚ
  hgt_sensor_offset : ℚ
  velObsVarNE0 : ℚ
  velObsVarNE1 : ℚ
  hvelInnovGate : ℚ
  posObsNoiseNE : ℚ
  posInnovGateNE : ℚ
  aux_vel_innov0 : ℚ
  aux_vel_innov1 : ℚ
  vel_pos_innov : Fin 6 → ℚ
  vel_pos_innov_var : Fin 6 → ℚ
  vel_pos_test_ratio : Fin 6 → ℚ
  fuse_hor_vel : Bool
  fuse_hor_vel_aux : Bool
  fuse_vert_vel : Bool
  fuse_pos : Bool
  fuse_height : Bool
  fuse_hpos_as_odom : Bool
  time_last_imu : ℕ
  time_last_vel_fuse : ℕ
  time_last_pos_fuse : ℕ
  time_last_delpos_fuse : ℕ
  time_last_hgt_fuse : ℕ
  fault : FaultStatus
  innov_fail : InnovCheckFail

/-- Observation slot `i` corresponds to state index `i + 4` (velocities
then positions), per the `state_index = obs_index + 4` of the source. -/
def stateIndex (i : Fin 6) : Fin 24 := ⟨i.val + 4, by omega⟩

/-- The four possible vertical references of the height slot. -/
inductive HeightSource where
  | baro
  | gps
  | rng
  | ev
deriving DecidableEq

/-- The height source selected this tick: the first-match chain of the
source (baro, then gps, then range if the tilt test passes, then external
vision), gated on the `fuse_height` request. `none` means slot 5 stays
inactive. -/
def heightSourceSel (e : Ekf) : Option HeightSource :=
  if e.fuse_height then
    if e.flags.baro_hgt then some HeightSource.baro
    else if e.flags.gps_hgt then some HeightSource.gps
    else if e.flags.rng_hgt ∧ e.R_rng_to_earth_2_2 > e.params.range_cos_max_tilt then
      some HeightSource.rng
    else if e.flags.ev_hgt then some HeightSource.ev
    else none
  else none

/-- The ground-effect deadzone applied to negative baro innovations, with
the hard-coded `deadzone_start = 0` of the source. -/
def gndEffectAdjust (d innov : ℚ) : ℚ :=
  let deadzone_start : ℚ := 0
  let deadzone_end : ℚ := deadzone_start + d
  if innov < -deadzone_start then
    if innov ≤ -deadzone_end then innov + deadzone_end else -deadzone_start
  else innov

/-- The `fuse_map` local array: which of the six observation slots are
live this tick. -/
def fuseMap (e : Ekf) : Fin 6 → Bool := fun i =>
  if i.val ≤ 1 then e.fuse_hor_vel || e.fuse_hor_vel_aux
  else if i.val = 2 then e.fuse_vert_vel
  else if i.val ≤ 4 then e.fuse_pos
  else (heightSourceSel e).isSome

/-- The vertical-position innovation of the selected height source, with
the ground-effect deadzone applied in the baro case; when no source is
selected, slot 5 keeps the stale copied member value. -/
def heightInnov (e : Ekf) : ℚ :=
  match heightSourceSel e with
  | some HeightSource.baro =>
      let raw := e.x 9 + e.baro_hgt_sample - e.baro_hgt_offset - e.hgt_sensor_offset
      if e.flags.gnd_effect then gndEffectAdjust e.params.gnd_effect_deadzone raw else raw
  | some HeightSource.gps =>
      e.x 9 + e.gps_hgt_sample - e.gps_alt_ref - e.hgt_sensor_offset
  | some HeightSource.rng =>
      e.x 9 - (-(max (e.rng_sample * e.R_rng_to_earth_2_2) e.params.rng_gnd_clearance))
        - e.hgt_sensor_offset
  | some HeightSource.ev =>
      e.x 9 - e.ev_pos_d
  | none => e.vel_pos_innov 5

/-- The `innovation` local array: a copy of the member innovations, with
the auxiliary-source override of slots 0 and 1 and the computed height
innovation of slot 5. -/
def innovationArr (e : Ekf) : Fin 6 → ℚ := fun i =>
  if i.val = 0 then
    if (e.fuse_hor_vel || e.fuse_hor_vel_aux) && !e.fuse_hor_vel then e.aux_vel_innov0
    else e.vel_pos_innov 0
  else if i.val = 1 then
    if (e.fuse_hor_vel || e.fuse_hor_vel_aux) && !e.fuse_hor_vel then e.aux_vel_innov1
    else e.vel_pos_innov 1
  else if i.val = 5 then heightInnov e
  else e.vel_pos_innov i

/-- The `R` local array of observation variances (zero-initialised, set
only for the slots whose request branch runs). -/
def obsVar (e : Ekf) : Fin 6 → ℚ := fun i =>
  if i.val = 0 then
    if e.fuse_hor_vel || e.fuse_hor_vel_aux then e.velObsVarNE0 else 0
  else if i.val = 1 then
    if e.fuse_hor_vel || e.fuse_hor_vel_aux then e.velObsVarNE1 else 0
  else if i.val = 2 then
    if e.fuse_vert_vel then
      let r1 := max e.params.gps_vel_noise (1 / 100)
      let r2 := (3 / 2) * max r1 e.gps_sacc
      r2 * r2
    else 0
  else if i.val ≤ 4 then
    if e.fuse_pos then sq e.posObsNoiseNE else 0
  else
    match heightSourceSel e with
    | some HeightSource.baro => sq (max e.params.baro_noise (1 / 100))
    | some HeightSource.gps =>
        let lower := max e.params.gps_pos_noise (1 / 100)
        let upper := max e.params.pos_noaid_noise lower
        sq ((3 / 2) * constrain e.gps_vacc lower upper)
    | some HeightSource.rng =>
        max ((sq e.params.range_noise + sq (e.params.range_noise_scaler * e.rng_sample))
               * sq e.R_rng_to_earth_2_2) (1 / 100)
    | some HeightSource.ev => sq (max e.ev_posErr (1 / 100))
    | none => 0

/-- The `gate_size` local array (zero-initialised, set only for the slots
whose request branch runs). Note that the GPS-height branch reuses
`baro_innov_gate`, exactly as the source does. -/
def gateSize (e : Ekf) : Fin 6 → ℚ := fun i =>
  if i.val ≤ 1 then
    if e.fuse_hor_vel || e.fuse_hor_vel_aux then e.hvelInnovGate else 0
  else if i.val = 2 then
    if e.fuse_vert_vel then max e.params.vel_innov_gate 1 else 0
  else if i.val ≤ 4 then
    if e.fuse_pos then e.posInnovGateNE else 0
  else
    match heightSourceSel e with
    | some HeightSource.baro => max e.params.baro_innov_gate 1
    | some HeightSource.gps => max e.params.baro_innov_gate 1
    | some HeightSource.rng => max e.params.range_innov_gate 1
    | some HeightSource.ev => max e.params.ev_innov_gate 1
    | none => 0

/-- The member `_vel_pos_innov_var` after the test-ratio loop: recomputed
from the pre-fusion covariance for active slots, stale otherwise. -/
def innovVarNew (e : Ekf) : Fin 6 → ℚ := fun i =>
  if fuseMap e i then e.P (stateIndex i) (stateIndex i) + obsVar e i
  else e.vel_pos_innov_var i

/-- The member `_vel_pos_test_ratio` after the test-ratio loop: recomputed
for active slots, stale otherwise. -/
def testRatioNew (e : Ekf) : Fin 6 → ℚ := fun i =>
  if fuseMap e i then
    sq (innovationArr e i) / (sq (gateSize e i) * innovVarNew e i)
  else e.vel_pos_test_ratio i

/-- The `vel_check_pass` local: all three stored velocity test ratios at
most one (stale entries included for slots not updated this tick). -/
def velCheckPass (e : Ekf) : Bool :=
  decide (testRatioNew e 0 ≤ 1) && decide (testRatioNew e 1 ≤ 1)
    && decide (testRatioNew e 2 ≤ 1)

/-- The `pos_check_pass` local: both horizontal-position ratios at most
one, or tilt alignment not yet complete. -/
def posCheckPass (e : Ekf) : Bool :=
  (decide (testRatioNew e 3 ≤ 1) && decide (testRatioNew e 4 ≤ 1))
    || !e.flags.tilt_align

/-- The height entry of `innov_check_pass_map`: ratio at most one, or
tilt alignment not yet complete. -/
def hgtCheckPass (e : Ekf) : Bool :=
  decide (testRatioNew e 5 ≤ 1) || !e.flags.tilt_align

/-- The `innov_check_pass_map` local array. -/
def passMap (e : Ekf) : Fin 6 → Bool := fun i =>
  if i.val ≤ 2 then velCheckPass e
  else if i.val ≤ 4 then posCheckPass e
  else hgtCheckPass e

/-- Modelled from the spec: `zeroRows` is declared but not defined in the
sources at hand; per the spec it sets rows `first` through `last`
inclusive of the matrix to zero. -/
def zeroRows (P : Mat) (first last : ℕ) : Mat := fun r c =>
  if first ≤ r.val ∧ r.val ≤ last then 0 else P r c

/-- Modelled from the spec: `zeroCols` is declared but not defined in the
sources at hand; per the spec it sets columns `first` through `last`
inclusive of the matrix to zero. -/
def zeroCols (P : Mat) (first last : ℕ) : Mat := fun r c =>
  if first ≤ c.val ∧ c.val ≤ last then 0 else P r c

/-- Modelled from the spec: `fixCovarianceErrors` is declared but not
defined in the sources at hand; per the spec it enforces symmetry and
clamps negative diagonal entries to zero (the magnitude caps on extreme
variances are left unspecified by the spec and are not modelled). -/
def fixCovarianceErrors (P : Mat) : Mat := fun r c =>
  if r = c then max ((P r c + P c r) / 2) 0 else (P r c + P c r) / 2

/-- Modelled from the spec: the state-update primitive `fuse(K, innov)`
is declared but not defined in the sources at hand; per the spec it
applies the correction `x := x + K * innov`. -/
def fuse (K : Vec24) (innov : ℚ) (x : Vec24) : Vec24 := fun r =>
  x r + K r * innov

/-- The per-slot fault-flag assignment of the positive-definiteness
guard: the if-chain on the observation index of the source. -/
def setFault (f : FaultStatus) (obs : Fin 6) (b : Bool) : FaultStatus :=
  if obs.val = 0 then { f with bad_vel_N := b }
  else if obs.val = 1 then { f with bad_vel_E := b }
  else if obs.val = 2 then { f with bad_vel_D := b }
  else if obs.val = 3 then { f with bad_pos_N := b }
  else if obs.val = 4 then { f with bad_pos_E := b }
  else if obs.val = 5 then { f with bad_pos_D := b }
  else f

/-- Read the fault flag that the guard of slot `obs` assigns. -/
def getFault (f : FaultStatus) (obs : Fin 6) : Bool :=
  if obs.val = 0 then f.bad_vel_N
  else if obs.val = 1 then f.bad_vel_E
  else if obs.val = 2 then f.bad_vel_D
  else if obs.val = 3 then f.bad_pos_N
  else if obs.val = 4 then f.bad_pos_E
  else f.bad_pos_D

/-- The Kalman gain column for a scalar observation on state `s`:
`K[r] = P[r][s] / innov_var`. -/
def Kgain (iv : ℚ) (P : Mat) (s : Fin 24) : Vec24 := fun r => P r s / iv

/-- The rank-one covariance decrement `KHP[r][c] = K[r] * P[s][c]`. -/
def KHPmat (iv : ℚ) (P : Mat) (s : Fin 24) : Mat := fun r c =>
  Kgain iv P s r * P s c

/-- Accumulator of the positive-definiteness guard scan: the covariance
being repaired, the fault flags, and the `healthy` local. -/
structure GuardAcc where
  P : Mat
  fault : FaultStatus
  healthy : Bool

/-- One iteration of the guard scan at diagonal index `i`: on
`P[i][i] < KHP[i][i]` zero row and column `i`, record the slot fault
and clear `healthy`; otherwise clear the slot fault. -/
def guardStep (obs : Fin 6) (KHP : Mat) (acc : GuardAcc) (i : Fin 24) : GuardAcc :=
  if acc.P i i < KHP i i then
    { P := zeroCols (zeroRows acc.P i.val i.val) i.val i.val,
      fault := setFault acc.fault obs true,
      healthy := false }
  else
    { acc with fault := setFault acc.fault obs false }

/-- The guard scan over an explicit list of diagonal indices. -/
def guardList (obs : Fin 6) (KHP : Mat) : List (Fin 24) → GuardAcc → GuardAcc
  | [], acc => acc
  | i :: rest, acc => guardList obs KHP rest (guardStep obs KHP acc i)

/-- The full positive-definiteness guard scan over all 24 diagonal
indices in increasing order. -/
def guardScan (obs : Fin 6) (KHP : Mat) (P : Mat) (f : FaultStatus) : GuardAcc :=
  guardList obs KHP (List.finRange 24) ⟨P, f, true⟩

/-- The mutable state threaded through the sequential update loop. -/
structure LoopState where
  P : Mat
  x : Vec24
  fault : FaultStatus

/-- One slot of the sequential update loop: skip if the slot is not live
or failed its innovation check; otherwise compute the gain column and the
rank-one decrement, run the guard scan, and apply the covariance and
state corrections only when the scan reported a healthy covariance. -/
def seqStep (fm pm : Fin 6 → Bool) (innovation iv : Fin 6 → ℚ)
    (st : LoopState) (obs : Fin 6) : LoopState :=
  if !fm obs || !pm obs then st
  else
    let s := stateIndex obs
    let K := Kgain (iv obs) st.P s
    let KHP := KHPmat (iv obs) st.P s
    let g := guardScan obs KHP st.P st.fault
    if g.healthy then
      { P := fixCovarianceErrors (fun r c => g.P r c - KHP r c),
        x := fuse K (innovation obs) st.x,
        fault := g.fault }
    else
      { st with P := g.P, fault := g.fault }

/-- The sequential update loop over the six observation slots in order. -/
def fuseLoop (fm pm : Fin 6 → Bool) (innovation iv : Fin 6 → ℚ)
    (st : LoopState) : LoopState :=
  (List.finRange 6).foldl (seqStep fm pm innovation iv) st

/-- The full fusion routine `Ekf::fuseVelPosHeight`: assemble the
observation slots, recompute innovation variances and test ratios for the
live slots, take the grouped gate decisions, update the health and timing
ledger, clear the one-shot request flags, and run the sequential update
loop. -/
def fuseVelPosHeight (e : Ekf) : Ekf :=
  let fm := fuseMap e
  let innovation := innovationArr e
  let ivNew := innovVarNew e
  let final := fuseLoop fm (passMap e) innovation ivNew ⟨e.P, e.x, e.fault⟩
  { e with
    x := final.x
    P := final.P
    fault := final.fault
    vel_pos_innov := fun i =>
      if e.fuse_height ∧ i.val = 5 then innovation 5 else e.vel_pos_innov i
    vel_pos_innov_var := ivNew
    vel_pos_test_ratio := testRatioNew e
    time_last_vel_fuse :=
      if (e.fuse_hor_vel || e.fuse_hor_vel_aux || e.fuse_vert_vel) && velCheckPass e then
        e.time_last_imu
      else e.time_last_vel_fuse
    time_last_pos_fuse :=
      if (posCheckPass e && e.fuse_pos) && !e.fuse_hpos_as_odom then e.time_last_imu
      else e.time_last_pos_fuse
    time_last_delpos_fuse :=
      if (posCheckPass e && e.fuse_pos) && e.fuse_hpos_as_odom then e.time_last_imu
      else e.time_last_delpos_fuse
    time_last_hgt_fuse :=
      if hgtCheckPass e && e.fuse_height then e.time_last_imu
      else e.time_last_hgt_fuse
    innov_fail :=
      { reject_vel_NED :=
          if (e.fuse_hor_vel || e.fuse_hor_vel_aux || e.fuse_vert_vel) && velCheckPass e then
            false
          else if !velCheckPass e then true
          else e.innov_fail.reject_vel_NED
        reject_pos_NE :=
          if posCheckPass e && e.fuse_pos then false
          else if !posCheckPass e then true
          else e.innov_fail.reject_pos_NE
        reject_pos_D :=
          if hgtCheckPass e && e.fuse_height then false
          else if !hgtCheckPass e then true
          else e.innov_fail.reject_pos_D }
    fuse_hor_vel := false
    fuse_hor_vel_aux := false
    fuse_vert_vel := false
    fuse_pos := false
    fuse_height := false }

/-! ### Concrete inputs used by witnesses and counterexamples -/

/-- All control flags off, tilt alignment complete. -/
def baseFlags : ControlFlags :=
  { baro_hgt := false, gps_hgt := false, rng_hgt := false, ev_hgt := false,
    gnd_effect := false, tilt_align := true }

/-- Simple reference parameter values. -/
def baseParams : Params :=
  { gps_vel_noise := 0, vel_innov_gate := 0, baro_noise := 1, baro_innov_gate := 1,
    gps_pos_noise := 0, pos_noaid_noise := 0, range_noise := 0, range_noise_scaler := 0,
    rng_gnd_clearance := 0, range_cos_max_tilt := 0, range_innov_gate := 0,
    ev_innov_gate := 0, gnd_effect_deadzone := 0 }

/-- All fault flags clear. -/
def baseFault : FaultStatus :=
  { bad_vel_N := false, bad_vel_E := false, bad_vel_D := false,
    bad_pos_N := false, bad_pos_E := false, bad_pos_D := false }

/-- A reference filter state: identity-like covariance, zero state vector,
no fusion requested, stale stored test ratios above the gate. -/
def baseEkf : Ekf :=
  { x := fun _ => 0
    P := fun r c => if r = c then 1 else 0
    params := baseParams
    flags := baseFlags
    gps_hgt_sample := 0, gps_sacc := 0, gps_vacc := 0
    baro_hgt_sample := 0, rng_sample := 0, ev_pos_d := 0, ev_posErr := 0
    R_rng_to_earth_2_2 := 0
    baro_hgt_offset := 0, gps_alt_ref := 0, hgt_sensor_offset := 0
    velObsVarNE0 := 1, velObsVarNE1 := 1
    hvelInnovGate := 1, posObsNoiseNE := 1, posInnovGateNE := 1
    aux_vel_innov0 := 0, aux_vel_innov1 := 0
    vel_pos_innov := fun _ => 0
    vel_pos_innov_var := fun _ => 1
    vel_pos_test_ratio := fun _ => 2
    fuse_hor_vel := false, fuse_hor_vel_aux := false, fuse_vert_vel := false
    fuse_pos := false, fuse_height := false, fuse_hpos_as_odom := false
    time_last_imu := 100
    time_last_vel_fuse := 0, time_last_pos_fuse := 0
    time_last_delpos_fuse := 0, time_last_hgt_fuse := 0
    fault := baseFault
    innov_fail := { reject_vel_NED := false, reject_pos_NE := false, reject_pos_D := true } }

/-- Horizontal-velocity fusion requested, vertical velocity not; the
stored (stale) test ratio of slot 2 fails while the active slots pass. -/
def ex1 : Ekf :=
  { baseEkf with
    fuse_hor_vel := true
    vel_pos_test_ratio := fun i => if i.val ≤ 1 then 0 else 2 }

/-- Horizontal-velocity fusion requested with all stored ratios passing. -/
def ex1pass : Ekf :=
  { baseEkf with
    fuse_hor_vel := true
    vel_pos_test_ratio := fun _ => 0 }

/-- Height fusion requested while no height-source control flag is set;
the stored (stale) slot-5 test ratio passes. -/
def ex2 : Ekf :=
  { baseEkf with
    fuse_height := true
    vel_pos_test_ratio := fun _ => 0 }

/-- Baro height fusion with a covariance whose velocity-down and
position-down entries are strongly correlated, so the guard fails at
diagonal index 4 but passes at the final index 23. -/
def ex3 : Ekf :=
  { baseEkf with
    fuse_height := true
    flags := { baseFlags with baro_hgt := true }
    P := fun r c =>
      if r = c then 1
      else if (r.val = 4 ∧ c.val = 9) ∨ (r.val = 9 ∧ c.val = 4) then 2
      else 0 }

/-- The loop state of `ex3`: used to exercise the sequential step alone. -/
def ex4st : LoopState :=
  { P := fun r c =>
      if r = c then 1
      else if (r.val = 4 ∧ c.val = 9) ∨ (r.val = 9 ∧ c.val = 4) then 2
      else 0
    x := fun _ => 0
    fault := baseFault }

/-- A healthy loop state: identity covariance. -/
def ex9st : LoopState :=
  { P := fun r c => if r = c then 1 else 0
    x := fun _ => 0
    fault := baseFault }

/-- Vertical-velocity fusion requested. -/
def ex9 : Ekf :=
  { baseEkf with fuse_vert_vel := true }

/-- Height fusion requested with all four height-source flags set. -/
def ex8 : Ekf :=
  { baseEkf with
    fuse_height := true
    flags := { baseFlags with
               baro_hgt := true
               gps_hgt := true
               rng_hgt := true
               ev_hgt := true } }

/-- Height fusion requested with only the GPS height flag set. -/
def ex8gps : Ekf :=
  { baseEkf with
    fuse_height := true
    flags := { baseFlags with gps_hgt := true } }

/-- A loop state with zero covariance and zero state: every guard
comparison passes, so fusion with it is healthy. -/
def exZeroSt : LoopState := ⟨fun _ _ => 0, fun _ => 0, baseFault⟩

/-- Baro height fusion with the ground-effect flag set. -/
def ex7 : Ekf :=
  { baseEkf with
    fuse_height := true
    flags := { baseFlags with
               baro_hgt := true
               gnd_effect := true } }

/-! ### Helper lemmas about the positive-definiteness guard scan -/

theorem getFault_setFault (f : FaultStatus) (obs : Fin 6) (b : Bool) :
    getFault (setFault f obs b) obs = b := by
  fin_cases obs <;> rfl

theorem guardStep_P (obs : Fin 6) (KHP : Mat) (acc : GuardAcc) (i : Fin 24) :
    (guardStep obs KHP acc i).P =
      if acc.P i i < KHP i i then zeroCols (zeroRows acc.P i.val i.val) i.val i.val
      else acc.P := by
  by_cases hc : acc.P i i < KHP i i <;> simp [guardStep, hc]

theorem guardStep_healthy (obs : Fin 6) (KHP : Mat) (acc : GuardAcc) (i : Fin 24) :
    (guardStep obs KHP acc i).healthy =
      if acc.P i i < KHP i i then false else acc.healthy := by
  by_cases hc : acc.P i i < KHP i i <;> simp [guardStep, hc]

theorem guardStep_fault (obs : Fin 6) (KHP : Mat) (acc : GuardAcc) (i : Fin 24) :
    (guardStep obs KHP acc i).fault =
      setFault acc.fault obs (decide (acc.P i i < KHP i i)) := by
  by_cases hc : acc.P i i < KHP i i <;> simp [guardStep, hc]

theorem zeroRowCol_apply (P : Mat) (i r c : Fin 24) :
    (zeroCols (zeroRows P i.val i.val) i.val i.val) r c =
      if r = i ∨ c = i then 0 else P r c := by
  simp only [zeroCols, zeroRows]
  by_cases hr : r = i
  · have h1 : i.val ≤ r.val ∧ r.val ≤ i.val := by rw [hr]; omega
    by_cases hcc : c = i
    · have h2 : i.val ≤ c.val ∧ c.val ≤ i.val := by rw [hcc]; omega
      rw [if_pos h2]; simp [hr]
    · have hcv : ¬(c.val = i.val) := fun h => hcc (Fin.ext h)
      rw [if_neg (by omega), if_pos h1]; simp [hr]
  · have hrv : ¬(r.val = i.val) := fun h => hr (Fin.ext h)
    by_cases hcc : c = i
    · have h2 : i.val ≤ c.val ∧ c.val ≤ i.val := by rw [hcc]; omega
      rw [if_pos h2]; simp [hcc]
    · have hcv : ¬(c.val = i.val) := fun h => hcc (Fin.ext h)
      rw [if_neg (by omega), if_neg (by omega)]
      simp [hr, hcc]

theorem guardList_healthy (obs : Fin 6) (KHP : Mat) (P0 : Mat) :
    ∀ (l : List (Fin 24)), l.Nodup →
      ∀ (acc : GuardAcc), (∀ i ∈ l, acc.P i i = P0 i i) →
        (guardList obs KHP l acc).healthy =
          (acc.healthy && l.all fun i => !decide (P0 i i < KHP i i)) := by
  intro l
  induction l with
  | nil => intro _ acc _; simp [guardList]
  | cons i rest ih =>
      intro hnd acc hdiag
      have hi : acc.P i i = P0 i i := hdiag i (List.mem_cons_self i rest)
      have hnotmem : i ∉ rest := (List.nodup_cons.mp hnd).1
      have hndrest : rest.Nodup := (List.nodup_cons.mp hnd).2
      have hunfold : guardList obs KHP (i :: rest) acc =
          guardList obs KHP rest (guardStep obs KHP acc i) := rfl
      have hdiag2 : ∀ j ∈ rest, (guardStep obs KHP acc i).P j j = P0 j j := by
        intro j hj
        have hne : j ≠ i := fun h => hnotmem (h ▸ hj)
        rw [guardStep_P]
        by_cases hc : acc.P i i < KHP i i
        · rw [if_pos hc, zeroRowCol_apply, if_neg (by tauto)]
          exact hdiag j (List.mem_cons_of_mem i hj)
        · rw [if_neg hc]
          exact hdiag j (List.mem_cons_of_mem i hj)
      rw [hunfold, ih hndrest _ hdiag2, guardStep_healthy]
      by_cases hc : acc.P i i < KHP i i
      · have hP0 : P0 i i < KHP i i := hi ▸ hc
        simp [hc, hP0]
      · have hP0 : ¬(P0 i i < KHP i i) := hi ▸ hc
        simp [hc, hP0]

theorem guardList_P (obs : Fin 6) (KHP : Mat) (P0 : Mat) :
    ∀ (l : List (Fin 24)), l.Nodup →
      ∀ (acc : GuardAcc), (∀ i ∈ l, acc.P i i = P0 i i) →
        ∀ r c, (guardList obs KHP l acc).P r c =
          if ∃ i ∈ l, P0 i i < KHP i i ∧ (r = i ∨ c = i) then 0 else acc.P r c := by
  intro l
  induction l with
  | nil => intro _ acc _ r c; simp [guardList]
  | cons i rest ih =>
      intro hnd acc hdiag r c
      have hi : acc.P i i = P0 i i := hdiag i (List.mem_cons_self i rest)
      have hnotmem : i ∉ rest := (List.nodup_cons.mp hnd).1
      have hndrest : rest.Nodup := (List.nodup_cons.mp hnd).2
      have hunfold : guardList obs KHP (i :: rest) acc =
          guardList obs KHP rest (guardStep obs KHP acc i) := rfl
      have hdiag2 : ∀ j ∈ rest, (guardStep obs KHP acc i).P j j = P0 j j := by
        intro j hj
        have hne : j ≠ i := fun h => hnotmem (h ▸ hj)
        rw [guardStep_P]
        by_cases hc : acc.P i i < KHP i i
        · rw [if_pos hc, zeroRowCol_apply, if_neg (by tauto)]
          exact hdiag j (List.mem_cons_of_mem i hj)
        · rw [if_neg hc]
          exact hdiag j (List.mem_cons_of_mem i hj)
      rw [hunfold, ih hndrest _ hdiag2 r c, guardStep_P]
      by_cases hc : acc.P i i < KHP i i
      · have hP0 : P0 i i < KHP i i := hi ▸ hc
        rw [if_pos hc]
        by_cases hrest : ∃ j ∈ rest, P0 j j < KHP j j ∧ (r = j ∨ c = j)
        · rw [if_pos hrest, if_pos ?_]
          obtain ⟨j, hj, hcond⟩ := hrest
          exact ⟨j, List.mem_cons_of_mem i hj, hcond⟩
        · rw [if_neg hrest, zeroRowCol_apply]
          by_cases hhit : r = i ∨ c = i
          · rw [if_pos hhit, if_pos ⟨i, List.mem_cons_self i rest, hP0, hhit⟩]
          · rw [if_neg hhit, if_neg ?_]
            rintro ⟨j, hj, hlt, hor⟩
            rcases List.mem_cons.mp hj with rfl | hj2
            · exact hhit hor
            · exact hrest ⟨j, hj2, hlt, hor⟩
      · have hP0 : ¬(P0 i i < KHP i i) := hi ▸ hc
        rw [if_neg hc]
        by_cases hrest : ∃ j ∈ rest, P0 j j < KHP j j ∧ (r = j ∨ c = j)
        · rw [if_pos hrest, if_pos ?_]
          obtain ⟨j, hj, hcond⟩ := hrest
          exact ⟨j, List.mem_cons_of_mem i hj, hcond⟩
        · rw [if_neg hrest, if_neg ?_]
          rintro ⟨j, hj, hlt, hor⟩
          rcases List.mem_cons.mp hj with rfl | hj2
          · exact hP0 hlt
          · exact hrest ⟨j, hj2, hlt, hor⟩

theorem guardList_append (obs : Fin 6) (KHP : Mat) (l1 l2 : List (Fin 24))
    (acc : GuardAcc) :
    guardList obs KHP (l1 ++ l2) acc = guardList obs KHP l2 (guardList obs KHP l1 acc) := by
  induction l1 generalizing acc with
  | nil => rfl
  | cons i rest ih => exact ih _

theorem guardScan_healthy (obs : Fin 6) (KHP P : Mat) (f : FaultStatus) :
    (guardScan obs KHP P f).healthy = false ↔ ∃ i, P i i < KHP i i := by
  rw [guardScan,
    guardList_healthy obs KHP P (List.finRange 24) (List.nodup_finRange 24) _
      (fun i _ => rfl)]
  simp [List.all_eq_true]

theorem guardScan_P (obs : Fin 6) (KHP P : Mat) (f : FaultStatus) (r c : Fin 24) :
    (guardScan obs KHP P f).P r c =
      if ∃ i, P i i < KHP i i ∧ (r = i ∨ c = i) then 0 else P r c := by
  rw [guardScan,
    guardList_P obs KHP P (List.finRange 24) (List.nodup_finRange 24) _
      (fun i _ => rfl) r c]
  simp only [List.mem_finRange, true_and]

theorem guardScan_flag (obs : Fin 6) (KHP P : Mat) (f : FaultStatus) :
    getFault (guardScan obs KHP P f).fault obs = decide (P 23 23 < KHP 23 23) := by
  have hsplit : List.finRange 24 =
      (List.finRange 24).dropLast ++ [(23 : Fin 24)] := by decide
  have hnotmem : (23 : Fin 24) ∉ (List.finRange 24).dropLast := by decide
  have hnd : (List.finRange 24).dropLast.Nodup := by decide
  rw [guardScan, hsplit, guardList_append]
  set g1 := guardList obs KHP (List.finRange 24).dropLast ⟨P, f, true⟩ with hg1
  have hP23 : g1.P 23 23 = P 23 23 := by
    rw [hg1, guardList_P obs KHP P _ hnd _ (fun i _ => rfl) 23 23]
    rw [if_neg ?_]
    rintro ⟨j, hj, -, (rfl | rfl)⟩ <;> exact hnotmem hj
  show getFault (guardList obs KHP [(23 : Fin 24)] g1).fault obs = _
  simp only [guardList, guardStep, hP23]
  by_cases hc : P 23 23 < KHP 23 23
  · rw [if_pos hc]
    simp [getFault_setFault, hc]
  · rw [if_neg hc]
    simp [getFault_setFault, hc]

/-! ### Helper lemmas about the sequential loop -/

theorem seqStep_skip (fm pm : Fin 6 → Bool) (iN iv : Fin 6 → ℚ) (st : LoopState)
    (obs : Fin 6) (h : fm obs = false ∨ pm obs = false) :
    seqStep fm pm iN iv st obs = st := by
  rcases h with h | h <;> simp [seqStep, h]

theorem fuseLoop_id (fm pm : Fin 6 → Bool) (iN iv : Fin 6 → ℚ) (st : LoopState)
    (h : ∀ obs, fm obs = false ∨ pm obs = false) :
    fuseLoop fm pm iN iv st = st := by
  have key : ∀ (l : List (Fin 6)) (s : LoopState),
      List.foldl (seqStep fm pm iN iv) s l = s := by
    intro l
    induction l with
    | nil => intro s; rfl
    | cons a rest ih => intro s; rw [List.foldl_cons, seqStep_skip _ _ _ _ _ _ (h a)]; exact ih s
  exact key _ _

/-! ### Small evaluation helpers for Fin literals -/

theorem fin6_val_5 : ((5 : Fin 6) : ℕ) = 5 := rfl

theorem fin24_val_4 : ((4 : Fin 24) : ℕ) = 4 := rfl

theorem fin24_val_23 : ((23 : Fin 24) : ℕ) = 23 := rfl

/-! ### Unfolding the sequential step for a live, passing slot -/

theorem seqStep_active (fm pm : Fin 6 → Bool) (iN iv : Fin 6 → ℚ)
    (st : LoopState) (obs : Fin 6) (hfm : fm obs = true) (hpm : pm obs = true) :
    seqStep fm pm iN iv st obs =
      (if (guardScan obs (KHPmat (iv obs) st.P (stateIndex obs)) st.P st.fault).healthy then
        { P := fixCovarianceErrors (fun r c =>
            (guardScan obs (KHPmat (iv obs) st.P (stateIndex obs)) st.P st.fault).P r c
              - KHPmat (iv obs) st.P (stateIndex obs) r c),
          x := fuse (Kgain (iv obs) st.P (stateIndex obs)) (iN obs) st.x,
          fault := (guardScan obs (KHPmat (iv obs) st.P (stateIndex obs)) st.P
            st.fault).fault }
      else
        { st with
          P := (guardScan obs (KHPmat (iv obs) st.P (stateIndex obs)) st.P st.fault).P,
          fault := (guardScan obs (KHPmat (iv obs) st.P (stateIndex obs)) st.P
            st.fault).fault }) := by
  rw [seqStep, if_neg (by simp [hfm, hpm])]

/-! ### Concrete evaluation facts for the example inputs -/

theorem ex1_velCheckPass_false : velCheckPass ex1 = false := by
  norm_num [velCheckPass, testRatioNew, fuseMap, innovationArr, obsVar, gateSize,
    innovVarNew, sq, ex1, baseEkf, stateIndex, heightSourceSel]

theorem ex1_ratio0_le_one : testRatioNew ex1 0 ≤ 1 := by
  norm_num [testRatioNew, fuseMap, innovationArr, obsVar, gateSize,
    innovVarNew, sq, ex1, baseEkf, stateIndex, heightSourceSel]

theorem ex1_ratio1_le_one : testRatioNew ex1 1 ≤ 1 := by
  norm_num [testRatioNew, fuseMap, innovationArr, obsVar, gateSize,
    innovVarNew, sq, ex1, baseEkf, stateIndex, heightSourceSel]

theorem ex1pass_velCheckPass_true : velCheckPass ex1pass = true := by
  norm_num [velCheckPass, testRatioNew, fuseMap, innovationArr, obsVar, gateSize,
    innovVarNew, sq, ex1pass, baseEkf, stateIndex, heightSourceSel]

theorem ex2_no_source : heightSourceSel ex2 = none := rfl

theorem ex2_hgtCheckPass_true : hgtCheckPass ex2 = true := by decide

theorem ex3_fuseMap5 : fuseMap ex3 5 = true := rfl

theorem ex3_innovVar5 : innovVarNew ex3 5 = 2 := by
  norm_num [innovVarNew, fuseMap, obsVar, heightSourceSel, sq, stateIndex,
    ex3, baseEkf, baseParams, baseFlags, Fin.ext_iff, fin6_val_5, fin24_val_4,
    fin24_val_23]

theorem ex3_guard_fails_at_4 :
    ex3.P 4 4 < KHPmat (innovVarNew ex3 5) ex3.P (stateIndex 5) 4 4 := by
  rw [ex3_innovVar5]
  norm_num [KHPmat, Kgain, stateIndex, ex3, baseEkf, Fin.ext_iff, fin6_val_5,
    fin24_val_4, fin24_val_23]

theorem ex3_guard_passes_at_23 :
    ¬(ex3.P 23 23 < KHPmat (innovVarNew ex3 5) ex3.P (stateIndex 5) 23 23) := by
  rw [ex3_innovVar5]
  norm_num [KHPmat, Kgain, stateIndex, ex3, baseEkf, Fin.ext_iff, fin6_val_5,
    fin24_val_4, fin24_val_23]

theorem ex3_testRatio5 : testRatioNew ex3 5 = 0 := by
  norm_num [testRatioNew, fuseMap, innovationArr, heightInnov, heightSourceSel,
    gateSize, innovVarNew, obsVar, sq, stateIndex, ex3, baseEkf, baseParams, baseFlags,
    Fin.ext_iff, fin6_val_5, fin24_val_4, fin24_val_23]

theorem ex3_passMap5 : passMap ex3 5 = true := by
  show hgtCheckPass ex3 = true
  simp [hgtCheckPass, ex3_testRatio5]

theorem ex4st_guard_fails_at_4 :
    ex4st.P 4 4 < KHPmat 2 ex4st.P (stateIndex 5) 4 4 := by
  norm_num [KHPmat, Kgain, stateIndex, ex4st, Fin.ext_iff, fin6_val_5, fin24_val_4]

theorem exZeroSt_no_guard_failure :
    ¬∃ i, exZeroSt.P i i < KHPmat 2 exZeroSt.P (stateIndex 5) i i := by
  rintro ⟨i, hi⟩
  norm_num [exZeroSt, KHPmat, Kgain] at hi

theorem exZeroSt_healthy :
    (guardScan 5 (KHPmat 2 exZeroSt.P (stateIndex 5)) exZeroSt.P
      exZeroSt.fault).healthy = true := by
  rcases Bool.eq_false_or_eq_true
      (guardScan 5 (KHPmat 2 exZeroSt.P (stateIndex 5)) exZeroSt.P
        exZeroSt.fault).healthy with h | h
  · exact h
  · exact absurd ((guardScan_healthy _ _ _ _).mp h) exZeroSt_no_guard_failure

/-! ### Shape of the ground-effect deadzone -/

theorem gndEffectAdjust_eq (d x : ℚ) :
    gndEffectAdjust d x = if x < 0 then (if x ≤ -d then x + d else 0) else x := by
  simp [gndEffectAdjust]

theorem gndEffectAdjust_sub_le (d : ℚ) (hd : 0 ≤ d) (a b : ℚ) (hab : a ≤ b) :
    0 ≤ gndEffectAdjust d b - gndEffectAdjust d a ∧
    gndEffectAdjust d b - gndEffectAdjust d a ≤ b - a := by
  rw [gndEffectAdjust_eq, gndEffectAdjust_eq]
  split_ifs <;> constructor <;> linarith

theorem gndEffectAdjust_lipschitz (d : ℚ) (hd : 0 ≤ d) (a b : ℚ) :
    |gndEffectAdjust d a - gndEffectAdjust d b| ≤ |a - b| := by
  rcases le_total a b with hab | hab
  · have h := gndEffectAdjust_sub_le d hd a b hab
    rw [abs_sub_comm, abs_of_nonneg h.1, abs_sub_comm, abs_of_nonneg (by linarith)]
    exact h.2
  · have h := gndEffectAdjust_sub_le d hd b a hab
    rw [abs_of_nonneg h.1, abs_of_nonneg (by linarith)]
    exact h.2

/-! ### Claim theorems -/

/-- C1 (amended): the velocity group decision reads the stored test
ratios of all three velocity slots, the stale stored values of inactive
slots included: the group passes iff all three post-update stored ratios
are at most one; an inactive slot keeps its stale stored ratio; on a pass
with a velocity request the timestamp advances and the reject flag
clears, and on a failure the reject flag is set and the timestamp is
untouched. -/
theorem vel_group_pass_semantics (e : Ekf) :
    (velCheckPass e = true ↔
      (testRatioNew e 0 ≤ 1 ∧ testRatioNew e 1 ≤ 1 ∧ testRatioNew e 2 ≤ 1))
    ∧ (e.fuse_vert_vel = false → testRatioNew e 2 = e.vel_pos_test_ratio 2)
    ∧ (velCheckPass e = true →
        (e.fuse_hor_vel || e.fuse_hor_vel_aux || e.fuse_vert_vel) = true →
        (fuseVelPosHeight e).time_last_vel_fuse = e.time_last_imu ∧
        (fuseVelPosHeight e).innov_fail.reject_vel_NED = false)
    ∧ (velCheckPass e = false →
        (fuseVelPosHeight e).innov_fail.reject_vel_NED = true ∧
        (fuseVelPosHeight e).time_last_vel_fuse = e.time_last_vel_fuse) := by
  refine ⟨?_, ?_, ?_, ?_⟩
  · simp [velCheckPass, and_assoc]
  · intro h
    have : fuseMap e 2 = false := by simp [fuseMap, h]
    simp [testRatioNew, this]
  · intro hp hreq
    constructor <;> simp [fuseVelPosHeight, hp, hreq]
  · intro hp
    constructor <;> simp [fuseVelPosHeight, hp]

/-- C1 counterexample: with only horizontal velocity requested, both
active slots pass their gates, yet the stale stored ratio of the
inactive vertical slot fails the group: the reject flag is set and the
velocity fusion timestamp does not advance — refuting that the group
passes iff every active slot passes and that inactive stored ratios
cannot affect the decision. -/
theorem vel_group_stale_ratio_veto :
    fuseMap ex1 0 = true ∧ fuseMap ex1 1 = true ∧ fuseMap ex1 2 = false
    ∧ testRatioNew ex1 0 ≤ 1 ∧ testRatioNew ex1 1 ≤ 1
    ∧ (fuseVelPosHeight ex1).innov_fail.reject_vel_NED = true
    ∧ (fuseVelPosHeight ex1).time_last_vel_fuse = ex1.time_last_vel_fuse
    ∧ ex1.time_last_vel_fuse ≠ ex1.time_last_imu := by
  have hvel : velCheckPass ex1 = false := ex1_velCheckPass_false
  refine ⟨rfl, rfl, rfl, ex1_ratio0_le_one, ex1_ratio1_le_one, ?_, ?_, ?_⟩
  · simp [fuseVelPosHeight, hvel]
  · simp [fuseVelPosHeight, hvel]
  · decide

/-- C1 witness: the amended theorem applied at concrete inputs. -/
theorem vel_group_pass_semantics_witness :
    (ex1.fuse_vert_vel = false ∧ testRatioNew ex1 2 = ex1.vel_pos_test_ratio 2)
    ∧ (velCheckPass ex1pass = true ∧
        (fuseVelPosHeight ex1pass).time_last_vel_fuse = ex1pass.time_last_imu)
    ∧ (velCheckPass ex1 = false ∧
        (fuseVelPosHeight ex1).innov_fail.reject_vel_NED = true) :=
  ⟨⟨rfl, (vel_group_pass_semantics ex1).2.1 rfl⟩,
   ⟨ex1pass_velCheckPass_true,
    ((vel_group_pass_semantics ex1pass).2.2.1 ex1pass_velCheckPass_true rfl).1⟩,
   ⟨ex1_velCheckPass_false,
    ((vel_group_pass_semantics ex1).2.2.2 ex1_velCheckPass_false).1⟩⟩

/-- C2 (amended): when `fuse_height` is requested but no height source
populates slot 5, the state and covariance update for height is indeed
skipped (slot 5 is inactive and the sequential step for it is the
identity), but the ledger still runs on the stale stored slot-5 test
ratio: when that stale ratio passes (or tilt alignment is incomplete)
`time_last_hgt_fuse` advances and `reject_pos_D` is cleared, and when it
fails with tilt aligned `reject_pos_D` is set. -/
theorem height_no_source_ledger (e : Ekf) (hf : e.fuse_height = true)
    (hsel : heightSourceSel e = none) :
    fuseMap e 5 = false
    ∧ hgtCheckPass e = (decide (e.vel_pos_test_ratio 5 ≤ 1) || !e.flags.tilt_align)
    ∧ (hgtCheckPass e = true →
        (fuseVelPosHeight e).time_last_hgt_fuse = e.time_last_imu ∧
        (fuseVelPosHeight e).innov_fail.reject_pos_D = false)
    ∧ (hgtCheckPass e = false →
        (fuseVelPosHeight e).innov_fail.reject_pos_D = true ∧
        (fuseVelPosHeight e).time_last_hgt_fuse = e.time_last_hgt_fuse)
    ∧ (∀ st, seqStep (fuseMap e) (passMap e) (innovationArr e) (innovVarNew e) st 5
        = st) := by
  have hfm : fuseMap e 5 = false := by
    rw [show fuseMap e 5 = (heightSourceSel e).isSome from rfl, hsel]
    rfl
  refine ⟨hfm, ?_, ?_, ?_, ?_⟩
  · simp [hgtCheckPass, testRatioNew, hfm]
  · intro hp
    constructor <;> simp [fuseVelPosHeight, hp, hf]
  · intro hp
    constructor <;> simp [fuseVelPosHeight, hp]
  · intro st
    exact seqStep_skip _ _ _ _ _ _ (Or.inl hfm)

/-- C2 counterexample: height fusion requested with all four height
source flags clear; the stale stored slot-5 ratio passes, so the height
fusion timestamp advances to the current tick and `reject_pos_D` is
cleared from true to false — refuting that the timestamp stays put and
that the reject flag is neither set nor cleared. -/
theorem height_no_source_timestamp_advances :
    ex2.fuse_height = true
    ∧ ex2.flags.baro_hgt = false ∧ ex2.flags.gps_hgt = false
    ∧ ex2.flags.rng_hgt = false ∧ ex2.flags.ev_hgt = false
    ∧ (fuseVelPosHeight ex2).time_last_hgt_fuse = ex2.time_last_imu
    ∧ ex2.time_last_hgt_fuse ≠ ex2.time_last_imu
    ∧ ex2.innov_fail.reject_pos_D = true
    ∧ (fuseVelPosHeight ex2).innov_fail.reject_pos_D = false := by
  have hfh : ex2.fuse_height = true := rfl
  refine ⟨rfl, rfl, rfl, rfl, rfl, ?_, by decide, rfl, ?_⟩
  · simp [fuseVelPosHeight, ex2_hgtCheckPass_true, hfh]
  · simp [fuseVelPosHeight, ex2_hgtCheckPass_true, hfh]

/-- C2 witness: the amended theorem applied at the concrete input. -/
theorem height_no_source_ledger_witness :
    ex2.fuse_height = true ∧ heightSourceSel ex2 = none ∧
    hgtCheckPass ex2 = true ∧
    (fuseVelPosHeight ex2).time_last_hgt_fuse = ex2.time_last_imu :=
  ⟨rfl, ex2_no_source, ex2_hgtCheckPass_true,
   ((height_no_source_ledger ex2 rfl ex2_no_source).2.2.1 ex2_hgtCheckPass_true).1⟩

set_option maxRecDepth 4000 in
/-- C3 (amended): for a live, passing slot, the guard abandons the
update (the `healthy` local is false) iff some diagonal index fails the
comparison against the frozen rank-one decrement, but the bad fault flag
of the slot is reassigned at every index of the scan, so after the loop
it records only the outcome at the final index 23: it is true iff
`P[23][23] < KHP[23][23]`, regardless of failures at earlier indices. -/
theorem guard_flag_last_index (fm pm : Fin 6 → Bool) (iN iv : Fin 6 → ℚ)
    (st : LoopState) (obs : Fin 6) (hfm : fm obs = true) (hpm : pm obs = true) :
    ((guardScan obs (KHPmat (iv obs) st.P (stateIndex obs)) st.P st.fault).healthy = false
        ↔ ∃ i, st.P i i < KHPmat (iv obs) st.P (stateIndex obs) i i)
    ∧ getFault (seqStep fm pm iN iv st obs).fault obs =
        decide (st.P 23 23 < KHPmat (iv obs) st.P (stateIndex obs) 23 23) := by
  constructor
  · exact guardScan_healthy _ _ _ _
  · rw [seqStep_active fm pm iN iv st obs hfm hpm]
    by_cases hh : (guardScan obs (KHPmat (iv obs) st.P (stateIndex obs)) st.P
        st.fault).healthy
    · rw [if_pos hh]
      show getFault (guardScan obs (KHPmat (iv obs) st.P (stateIndex obs)) st.P
          st.fault).fault obs = _
      exact guardScan_flag obs (KHPmat (iv obs) st.P (stateIndex obs)) st.P st.fault
    · rw [if_neg hh]
      show getFault (guardScan obs (KHPmat (iv obs) st.P (stateIndex obs)) st.P
          st.fault).fault obs = _
      exact guardScan_flag obs (KHPmat (iv obs) st.P (stateIndex obs)) st.P st.fault

set_option maxRecDepth 8000 in
/-- C3 counterexample: baro height fusion where the guard fails at
diagonal index 4 (so the row and column are zeroed and the update is
abandoned) yet index 23 passes, so the final `bad_pos_D` flag is false —
refuting that the flag is true whenever some index failed and that it is
cleared only when every index passed. -/
theorem guard_flag_overwritten :
    ex3.P 4 4 < KHPmat (innovVarNew ex3 5) ex3.P (stateIndex 5) 4 4
    ∧ fuseMap ex3 5 = true ∧ passMap ex3 5 = true
    ∧ (fuseVelPosHeight ex3).fault.bad_pos_D = false
    ∧ (fuseVelPosHeight ex3).P 4 4 = 0 := by
  have hguard :
      guardScan 5 (KHPmat (innovVarNew ex3 5) ex3.P (stateIndex 5)) ex3.P ex3.fault
        = guardScan 5
            (KHPmat (innovVarNew ex3 5) (⟨ex3.P, ex3.x, ex3.fault⟩ : LoopState).P
              (stateIndex 5))
            (⟨ex3.P, ex3.x, ex3.fault⟩ : LoopState).P
            (⟨ex3.P, ex3.x, ex3.fault⟩ : LoopState).fault := rfl
  have hH : (guardScan 5 (KHPmat (innovVarNew ex3 5) ex3.P (stateIndex 5)) ex3.P
      ex3.fault).healthy = false :=
    (guardScan_healthy _ _ _ _).mpr ⟨4, ex3_guard_fails_at_4⟩
  have hloop : fuseLoop (fuseMap ex3) (passMap ex3) (innovationArr ex3) (innovVarNew ex3)
      ⟨ex3.P, ex3.x, ex3.fault⟩ =
        seqStep (fuseMap ex3) (passMap ex3) (innovationArr ex3) (innovVarNew ex3)
          ⟨ex3.P, ex3.x, ex3.fault⟩ 5 := by
    have s0 := seqStep_skip (fuseMap ex3) (passMap ex3) (innovationArr ex3)
      (innovVarNew ex3) ⟨ex3.P, ex3.x, ex3.fault⟩ 0 (Or.inl rfl)
    have s1 := seqStep_skip (fuseMap ex3) (passMap ex3) (innovationArr ex3)
      (innovVarNew ex3) ⟨ex3.P, ex3.x, ex3.fault⟩ 1 (Or.inl rfl)
    have s2 := seqStep_skip (fuseMap ex3) (passMap ex3) (innovationArr ex3)
      (innovVarNew ex3) ⟨ex3.P, ex3.x, ex3.fault⟩ 2 (Or.inl rfl)
    have s3 := seqStep_skip (fuseMap ex3) (passMap ex3) (innovationArr ex3)
      (innovVarNew ex3) ⟨ex3.P, ex3.x, ex3.fault⟩ 3 (Or.inl rfl)
    have s4 := seqStep_skip (fuseMap ex3) (passMap ex3) (innovationArr ex3)
      (innovVarNew ex3) ⟨ex3.P, ex3.x, ex3.fault⟩ 4 (Or.inl rfl)
    rw [fuseLoop, show List.finRange 6 = [0, 1, 2, 3, 4, 5] from rfl]
    simp only [List.foldl_cons, List.foldl_nil]
    rw [s0, s1, s2, s3, s4]
  have hstep := seqStep_active (fuseMap ex3) (passMap ex3) (innovationArr ex3)
    (innovVarNew ex3) ⟨ex3.P, ex3.x, ex3.fault⟩ 5 ex3_fuseMap5 ex3_passMap5
  rw [← hguard] at hstep
  rw [if_neg (by simp [hH])] at hstep
  have hfault : (fuseVelPosHeight ex3).fault =
      (guardScan 5 (KHPmat (innovVarNew ex3 5) ex3.P (stateIndex 5)) ex3.P
        ex3.fault).fault := by
    show (fuseLoop (fuseMap ex3) (passMap ex3) (innovationArr ex3) (innovVarNew ex3)
      ⟨ex3.P, ex3.x, ex3.fault⟩).fault = _
    rw [hloop, hstep]
  have hP : (fuseVelPosHeight ex3).P =
      (guardScan 5 (KHPmat (innovVarNew ex3 5) ex3.P (stateIndex 5)) ex3.P
        ex3.fault).P := by
    show (fuseLoop (fuseMap ex3) (passMap ex3) (innovationArr ex3) (innovVarNew ex3)
      ⟨ex3.P, ex3.x, ex3.fault⟩).P = _
    rw [hloop, hstep]
  refine ⟨ex3_guard_fails_at_4, ex3_fuseMap5, ex3_passMap5, ?_, ?_⟩
  · have : (fuseVelPosHeight ex3).fault.bad_pos_D =
        getFault (guardScan 5 (KHPmat (innovVarNew ex3 5) ex3.P (stateIndex 5)) ex3.P
          ex3.fault).fault 5 := by
      rw [hfault]; rfl
    rw [this, guardScan_flag, decide_eq_false ex3_guard_passes_at_23]
  · rw [hP, guardScan_P, if_pos ⟨4, ex3_guard_fails_at_4, Or.inl rfl⟩]

/-- C3 witness: the amended theorem applied at a concrete input. -/
theorem guard_flag_last_index_witness :
    ((fun _ : Fin 6 => true) 5 = true)
    ∧ getFault (seqStep (fun _ => true) (fun _ => true) (fun _ => 0) (fun _ => 2)
        exZeroSt 5).fault 5 =
      decide (exZeroSt.P 23 23 < KHPmat 2 exZeroSt.P (stateIndex 5) 23 23) :=
  ⟨rfl, (guard_flag_last_index (fun _ => true) (fun _ => true) (fun _ => 0) (fun _ => 2)
      exZeroSt 5 rfl rfl).2⟩

set_option maxRecDepth 8000 in
/-- C4: when the guard fails for a fused slot, the update for that slot
is abandoned: the state receives no correction, the covariance keeps all
entries outside the failing rows and columns and zeroes exactly the rows
and columns of the failing indices, and the sequential loop is the plain
composition of the six slot steps, so subsequent slots are still
attempted. -/
theorem guard_failure_abandons_update (fm pm : Fin 6 → Bool) (iN iv : Fin 6 → ℚ)
    (st : LoopState) (obs : Fin 6)
    (hfm : fm obs = true) (hpm : pm obs = true)
    (hfail : ∃ i, st.P i i < KHPmat (iv obs) st.P (stateIndex obs) i i) :
    ((seqStep fm pm iN iv st obs).x = st.x)
    ∧ (∀ r c, (seqStep fm pm iN iv st obs).P r c =
        if ∃ i, st.P i i < KHPmat (iv obs) st.P (stateIndex obs) i i ∧ (r = i ∨ c = i)
        then 0 else st.P r c)
    ∧ (∀ st2, fuseLoop fm pm iN iv st2 =
        seqStep fm pm iN iv (seqStep fm pm iN iv (seqStep fm pm iN iv
          (seqStep fm pm iN iv (seqStep fm pm iN iv (seqStep fm pm iN iv st2 0) 1) 2)
            3) 4) 5) := by
  have hH : (guardScan obs (KHPmat (iv obs) st.P (stateIndex obs)) st.P st.fault).healthy
      = false := (guardScan_healthy _ _ _ _).mpr hfail
  have hstep := seqStep_active fm pm iN iv st obs hfm hpm
  rw [if_neg (by simp [hH])] at hstep
  refine ⟨?_, ?_, ?_⟩
  · rw [hstep]
  · intro r c
    rw [hstep]
    exact guardScan_P _ _ _ _ _ _
  · intro st2
    rfl

/-- C4 witness: the theorem applied at a concrete failing input. -/
theorem guard_failure_abandons_update_witness :
    (ex4st.P 4 4 < KHPmat 2 ex4st.P (stateIndex 5) 4 4)
    ∧ (seqStep (fun _ => true) (fun _ => true) (fun _ => 0) (fun _ => 2) ex4st 5).x
        = ex4st.x :=
  ⟨ex4st_guard_fails_at_4,
   (guard_failure_abandons_update (fun _ => true) (fun _ => true) (fun _ => 0)
      (fun _ => 2) ex4st 5 rfl rfl ⟨4, ex4st_guard_fails_at_4⟩).1⟩

/-- C5: with all five one-shot fuse request flags false on entry, the
state vector, the covariance and all four last-fuse timestamps are
unchanged on exit. -/
theorem no_request_no_state_change (e : Ekf)
    (h1 : e.fuse_hor_vel = false) (h2 : e.fuse_hor_vel_aux = false)
    (h3 : e.fuse_vert_vel = false) (h4 : e.fuse_pos = false)
    (h5 : e.fuse_height = false) :
    (fuseVelPosHeight e).x = e.x ∧ (fuseVelPosHeight e).P = e.P ∧
    (fuseVelPosHeight e).time_last_vel_fuse = e.time_last_vel_fuse ∧
    (fuseVelPosHeight e).time_last_pos_fuse = e.time_last_pos_fuse ∧
    (fuseVelPosHeight e).time_last_delpos_fuse = e.time_last_delpos_fuse ∧
    (fuseVelPosHeight e).time_last_hgt_fuse = e.time_last_hgt_fuse := by
  have hfm : ∀ obs, fuseMap e obs = false := by
    intro obs
    fin_cases obs <;> simp [fuseMap, heightSourceSel, h1, h2, h3, h4, h5]
  have hloop := fuseLoop_id (fuseMap e) (passMap e) (innovationArr e) (innovVarNew e)
      ⟨e.P, e.x, e.fault⟩ (fun obs => Or.inl (hfm obs))
  refine ⟨?_, ?_, ?_, ?_, ?_, ?_⟩ <;>
    simp [fuseVelPosHeight, hloop, h1, h2, h3, h4, h5]

/-- C5 witness: the theorem applied at the reference input. -/
theorem no_request_no_state_change_witness :
    baseEkf.fuse_hor_vel = false ∧ baseEkf.fuse_height = false ∧
    (fuseVelPosHeight baseEkf).x = baseEkf.x ∧
    (fuseVelPosHeight baseEkf).time_last_hgt_fuse = baseEkf.time_last_hgt_fuse :=
  ⟨rfl, rfl, (no_request_no_state_change baseEkf rfl rfl rfl rfl rfl).1,
   (no_request_no_state_change baseEkf rfl rfl rfl rfl rfl).2.2.2.2.2⟩

/-- C6: every one-shot fuse request flag is false on return, for every
input. -/
theorem request_flags_one_shot (e : Ekf) :
    (fuseVelPosHeight e).fuse_hor_vel = false ∧
    (fuseVelPosHeight e).fuse_hor_vel_aux = false ∧
    (fuseVelPosHeight e).fuse_vert_vel = false ∧
    (fuseVelPosHeight e).fuse_pos = false ∧
    (fuseVelPosHeight e).fuse_height = false :=
  ⟨rfl, rfl, rfl, rfl, rfl⟩

/-- C7: the ground-effect deadzone is the identity on nonnegative
innovations, zero on the interval from minus the deadzone up to zero,
shifts by the deadzone below it, and is one-Lipschitz (hence
continuous); it is applied exactly in the baro branch with the
ground-effect flag set, and the other height sources use their raw
innovations. -/
theorem gnd_effect_deadzone_shape (e : Ekf) (d a b : ℚ) (hd : 0 ≤ d) :
    (∀ x : ℚ, 0 ≤ x → gndEffectAdjust d x = x)
    ∧ (∀ x : ℚ, -d ≤ x → x < 0 → gndEffectAdjust d x = 0)
    ∧ (∀ x : ℚ, x < -d → gndEffectAdjust d x = x + d)
    ∧ |gndEffectAdjust d a - gndEffectAdjust d b| ≤ |a - b|
    ∧ (heightSourceSel e = some HeightSource.baro → e.flags.gnd_effect = false →
        innovationArr e 5 =
          e.x 9 + e.baro_hgt_sample - e.baro_hgt_offset - e.hgt_sensor_offset)
    ∧ (heightSourceSel e = some HeightSource.baro → e.flags.gnd_effect = true →
        innovationArr e 5 = gndEffectAdjust e.params.gnd_effect_deadzone
          (e.x 9 + e.baro_hgt_sample - e.baro_hgt_offset - e.hgt_sensor_offset))
    ∧ (heightSourceSel e = some HeightSource.gps →
        innovationArr e 5 =
          e.x 9 + e.gps_hgt_sample - e.gps_alt_ref - e.hgt_sensor_offset)
    ∧ (heightSourceSel e = some HeightSource.rng →
        innovationArr e 5 =
          e.x 9 - (-(max (e.rng_sample * e.R_rng_to_earth_2_2)
            e.params.rng_gnd_clearance)) - e.hgt_sensor_offset)
    ∧ (heightSourceSel e = some HeightSource.ev →
        innovationArr e 5 = e.x 9 - e.ev_pos_d) := by
  refine ⟨?_, ?_, ?_, gndEffectAdjust_lipschitz d hd a b, ?_, ?_, ?_, ?_, ?_⟩
  · intro x hx
    rw [gndEffectAdjust_eq, if_neg (by linarith)]
  · intro x h1 h2
    rw [gndEffectAdjust_eq, if_pos h2]
    by_cases h3 : x ≤ -d
    · rw [if_pos h3]; linarith
    · rw [if_neg h3]
  · intro x hx
    rw [gndEffectAdjust_eq, if_pos (by linarith), if_pos (by linarith)]
  · intro h1 h2
    simp [innovationArr, heightInnov, h1, h2, fin6_val_5]
  · intro h1 h2
    simp [innovationArr, heightInnov, h1, h2, fin6_val_5]
  · intro h1
    simp [innovationArr, heightInnov, h1, fin6_val_5]
  · intro h1
    simp [innovationArr, heightInnov, h1, fin6_val_5]
  · intro h1
    simp [innovationArr, heightInnov, h1, fin6_val_5]

/-- C7 witness: the theorem applied at concrete inputs. -/
theorem gnd_effect_deadzone_shape_witness :
    (0 : ℚ) ≤ 1
    ∧ gndEffectAdjust 1 (-1/2) = 0
    ∧ gndEffectAdjust 1 (-2) = -2 + 1
    ∧ gndEffectAdjust 1 (1/2) = 1/2
    ∧ innovationArr ex7 5 = gndEffectAdjust ex7.params.gnd_effect_deadzone
        (ex7.x 9 + ex7.baro_hgt_sample - ex7.baro_hgt_offset - ex7.hgt_sensor_offset) :=
  have hd : (0 : ℚ) ≤ 1 := by norm_num
  have h := gnd_effect_deadzone_shape ex7 1 0 0 hd
  ⟨hd, h.2.1 (-1/2) (by norm_num) (by norm_num), h.2.2.1 (-2) (by norm_num),
   h.1 (1/2) (by norm_num), h.2.2.2.2.2.1 rfl rfl⟩

/-- C8: height-source selection is the first-match chain baro, gps,
range, external vision, where range qualifies only when the tilt term
exceeds the threshold; the selected source is unique by construction,
and the GPS branch sets the slot-5 gate from `baro_innov_gate`. -/
theorem height_source_priority (e : Ekf) :
    (e.fuse_height = true → e.flags.baro_hgt = true →
      heightSourceSel e = some HeightSource.baro)
    ∧ (e.fuse_height = true → e.flags.baro_hgt = false → e.flags.gps_hgt = true →
      heightSourceSel e = some HeightSource.gps ∧
      gateSize e 5 = max e.params.baro_innov_gate 1)
    ∧ (e.fuse_height = true → e.flags.baro_hgt = false → e.flags.gps_hgt = false →
      e.flags.rng_hgt = true → e.R_rng_to_earth_2_2 > e.params.range_cos_max_tilt →
      heightSourceSel e = some HeightSource.rng)
    ∧ (e.fuse_height = true → e.flags.baro_hgt = false → e.flags.gps_hgt = false →
      ¬(e.flags.rng_hgt = true ∧ e.R_rng_to_earth_2_2 > e.params.range_cos_max_tilt) →
      e.flags.ev_hgt = true → heightSourceSel e = some HeightSource.ev)
    ∧ (e.fuse_height = false → heightSourceSel e = none) := by
  refine ⟨?_, ?_, ?_, ?_, ?_⟩
  · intro h1 h2
    simp [heightSourceSel, h1, h2]
  · intro h1 h2 h3
    have hsel : heightSourceSel e = some HeightSource.gps := by
      simp [heightSourceSel, h1, h2, h3]
    refine ⟨hsel, ?_⟩
    simp [gateSize, hsel, fin6_val_5]
  · intro h1 h2 h3 h4 h5
    simp [heightSourceSel, h1, h2, h3, h4, h5]
  · intro h1 h2 h3 h4 h5
    simp [heightSourceSel, h1, h2, h3, h4, h5]
  · intro h1
    simp [heightSourceSel, h1]

/-- C8 witness: all four flags set selects baro; gps alone selects gps
with the baro gate. -/
theorem height_source_priority_witness :
    heightSourceSel ex8 = some HeightSource.baro
    ∧ (heightSourceSel ex8gps = some HeightSource.gps ∧
        gateSize ex8gps 5 = max ex8gps.params.baro_innov_gate 1) :=
  ⟨(height_source_priority ex8).1 rfl rfl,
   (height_source_priority ex8gps).2.1 rfl rfl rfl⟩

/-- C9: all six innovation variances are computed once from the
pre-fusion covariance (the members on exit equal the entry covariance
diagonal plus the observation variance, for every live slot); the loop
runs with exactly that frozen array, and inside the loop the gain of a
healthy slot divides the current, possibly already mutated, covariance
column by the frozen variance. -/
theorem innov_var_frozen_before_loop :
    (∀ (e : Ekf) (i : Fin 6), fuseMap e i = true →
      (fuseVelPosHeight e).vel_pos_innov_var i =
        e.P (stateIndex i) (stateIndex i) + obsVar e i)
    ∧ (∀ e : Ekf,
        (fuseVelPosHeight e).x =
          (fuseLoop (fuseMap e) (passMap e) (innovationArr e) (innovVarNew e)
            ⟨e.P, e.x, e.fault⟩).x ∧
        (fuseVelPosHeight e).P =
          (fuseLoop (fuseMap e) (passMap e) (innovationArr e) (innovVarNew e)
            ⟨e.P, e.x, e.fault⟩).P)
    ∧ (∀ (fm pm : Fin 6 → Bool) (iN iv : Fin 6 → ℚ) (st : LoopState) (obs : Fin 6),
        fm obs = true → pm obs = true →
        (guardScan obs (KHPmat (iv obs) st.P (stateIndex obs)) st.P st.fault).healthy
          = true →
        (seqStep fm pm iN iv st obs).x =
          fun r => st.x r + st.P r (stateIndex obs) / iv obs * iN obs) := by
  refine ⟨?_, ?_, ?_⟩
  · intro e i h
    show innovVarNew e i = _
    rw [innovVarNew, if_pos h]
  · intro e
    exact ⟨rfl, rfl⟩
  · intro fm pm iN iv st obs hfm hpm hh
    have hstep := seqStep_active fm pm iN iv st obs hfm hpm
    rw [if_pos hh] at hstep
    rw [hstep]
    rfl

/-- C9 witness: the theorem applied at concrete inputs. -/
theorem innov_var_frozen_before_loop_witness :
    (fuseMap ex9 2 = true ∧
      (fuseVelPosHeight ex9).vel_pos_innov_var 2 =
        ex9.P (stateIndex 2) (stateIndex 2) + obsVar ex9 2)
    ∧ (seqStep (fun _ => true) (fun _ => true) (fun _ => 0) (fun _ => 2) exZeroSt 5).x =
        fun r => exZeroSt.x r + exZeroSt.P r (stateIndex 5) / 2 * 0 :=
  ⟨⟨rfl, innov_var_frozen_before_loop.1 ex9 2 rfl⟩,
   innov_var_frozen_before_loop.2.2 (fun _ => true) (fun _ => true) (fun _ => 0)
     (fun _ => 2) exZeroSt 5 rfl rfl exZeroSt_healthy⟩

/-- C10: even with no fusion requested, the reject flags are set from
the stale stored test ratios: a failing stored velocity triple sets
`reject_vel_NED`, and with tilt aligned a failing stored position pair
sets `reject_pos_NE` and a failing stored height ratio sets
`reject_pos_D`. -/
theorem reject_flags_without_request (e : Ekf)
    (h1 : e.fuse_hor_vel = false) (h2 : e.fuse_hor_vel_aux = false)
    (h3 : e.fuse_vert_vel = false) (h4 : e.fuse_pos = false)
    (h5 : e.fuse_height = false) :
    (¬(e.vel_pos_test_ratio 0 ≤ 1 ∧ e.vel_pos_test_ratio 1 ≤ 1 ∧
        e.vel_pos_test_ratio 2 ≤ 1) →
      (fuseVelPosHeight e).innov_fail.reject_vel_NED = true)
    ∧ (e.flags.tilt_align = true →
       ¬(e.vel_pos_test_ratio 3 ≤ 1 ∧ e.vel_pos_test_ratio 4 ≤ 1) →
      (fuseVelPosHeight e).innov_fail.reject_pos_NE = true)
    ∧ (e.flags.tilt_align = true → ¬(e.vel_pos_test_ratio 5 ≤ 1) →
      (fuseVelPosHeight e).innov_fail.reject_pos_D = true) := by
  have hfm : ∀ obs, fuseMap e obs = false := by
    intro obs
    fin_cases obs <;> simp [fuseMap, heightSourceSel, h1, h2, h3, h4, h5]
  have htr : ∀ i, testRatioNew e i = e.vel_pos_test_ratio i := by
    intro i; simp [testRatioNew, hfm i]
  refine ⟨?_, ?_, ?_⟩
  · intro h
    have hvel : velCheckPass e = false := by
      cases hb : velCheckPass e
      · rfl
      · exfalso
        apply h
        simpa [velCheckPass, htr, and_assoc] using hb
    simp [fuseVelPosHeight, hvel]
  · intro ht h
    have hpos : posCheckPass e = false := by
      cases hb : posCheckPass e
      · rfl
      · exfalso
        apply h
        simpa [posCheckPass, htr, ht] using hb
    simp [fuseVelPosHeight, hpos]
  · intro ht h
    have hhgt : hgtCheckPass e = false := by
      cases hb : hgtCheckPass e
      · rfl
      · exfalso
        apply h
        simpa [hgtCheckPass, htr, ht] using hb
    simp [fuseVelPosHeight, hhgt]

/-- C10 witness: the theorem applied at the reference input whose stored
ratios all fail. -/
theorem reject_flags_without_request_witness :
    baseEkf.fuse_hor_vel = false ∧ baseEkf.fuse_pos = false ∧
    baseEkf.flags.tilt_align = true ∧
    (fuseVelPosHeight baseEkf).innov_fail.reject_vel_NED = true ∧
    (fuseVelPosHeight baseEkf).innov_fail.reject_pos_NE = true ∧
    (fuseVelPosHeight baseEkf).innov_fail.reject_pos_D = true :=
  ⟨rfl, rfl, rfl,
   (reject_flags_without_request baseEkf rfl rfl rfl rfl rfl).1
     (by norm_num [baseEkf]),
   (reject_flags_without_request baseEkf rfl rfl rfl rfl rfl).2.1 rfl
     (by norm_num [baseEkf]),
   (reject_flags_without_request baseEkf rfl rfl rfl rfl rfl).2.2 rfl
     (by norm_num [baseEkf])⟩

end Ecl
